import Mathlib

/-!
Verification of the QR-code CRUD web application.

Shallow embedding of the Python sources:
  app/models/qr_code.py        (QRCode model, generate_short_code)
  app/services/qr_service.py   (QRCodeService)
  app/controllers/qr_controller.py (redirect_qr, dynamic_redirect, edit_qr)
  app/utils/qr_generator.py    (is_valid_url, generate_qr_code)
  app/services/llm_service.py  (LLMService._execute_function)

The persistent store (a single SQLAlchemy table) is modelled as a list of
records in insertion order; each database commit is an explicit state
transition.  Randomness (secrets.token_urlsafe) is modelled as an ambient
stream of draws.  Python exceptions are modelled with Except / explicit
error results.
-/

/-- State of a transient Python attribute that is not backed by a column:
absent (reading it raises AttributeError), assigned None, or assigned a
string.  Absent and None behave differently in Python — a fresh object or
a record freshly loaded from the database has no such attribute at all —
so the three states are kept apart. -/
inductive PyAttr where
  | absent
  | pyNone
  | str (s : String)
deriving DecidableEq, Repr

/-- Embedding of one row of the `qr_codes` table (app/models/qr_code.py,
class QRCode).  `filename` is declared NOT NULL in the schema but a Python
object may hold None before a commit, hence Option.  `redirect_url` is not
a column of the table and no production code assigns it: on every record
freshly loaded from the database the attribute is absent and reading it
raises AttributeError; only the repository's test sets it transiently on a
session-cached object, hence the PyAttr three-state model.
Timestamps are abstract Nat ticks. -/
structure QRCodeRec where
  id : Nat
  url : String
  filename : Option String
  fill_color : String
  back_color : String
  created_at : Nat
  updated_at : Nat
  is_active : Bool
  description : String
  access_count : Nat
  is_dynamic : Bool
  short_code : Option String
  redirect_url : PyAttr
deriving DecidableEq, Repr

/-- Python string slicing s[:n], used in token_urlsafe(8)[:8]. -/
def pyTake (s : String) (n : Nat) : String :=
  ⟨s.data.take n⟩

/-- Embedding of the Python expression qr_code.redirect_url or qr_code.url
(qr_controller.py line 139): reading an absent attribute raises
AttributeError (error); otherwise None and the empty string are falsy
under or and fall back to u. -/
def pyAttrOrStr (a : PyAttr) (u : String) : Except Unit String :=
  match a with
  | PyAttr.absent => Except.error ()
  | PyAttr.pyNone => Except.ok u
  | PyAttr.str s => Except.ok (if s = "" then u else s)

/-- Python truthiness of an optional string: None and the empty string are
falsy (the check not self.short_code in QRCode.init). -/
def pyFalsyOpt (o : Option String) : Bool :=
  match o with
  | some s => s = ""
  | none => true

/-- True when no record of the store uses the candidate as its short_code:
the check not QRCode.query.filter_by(short_code=code).first()
inside QRCode.generate_short_code. -/
def shortCodeFree (store : List QRCodeRec) (code : String) : Bool :=
  store.all (fun r => r.short_code ≠ some code)

/-- Embedding of QRCode.generate_short_code (app/models/qr_code.py).
The Python loop draws code = secrets.token_urlsafe(8)[:8] repeatedly and
returns the first draw that is free in the live store.  The random source
is the stream draws; the loop terminates exactly when some draw is free,
which the hypothesis h supplies, and the result is the first such draw
(Nat.find h), exactly the value the unbounded while-loop returns. -/
def generate_short_code (store : List QRCodeRec) (draws : Nat → String)
    (h : ∃ n, shortCodeFree store (pyTake (draws n) 8) = true) : String :=
  pyTake (draws (Nat.find h)) 8

/-- Embedding of QRCode.init (app/models/qr_code.py): column defaults are
applied and, when is_dynamic is set and no short code was supplied, a fresh
short code is generated against the live store. -/
def qrInit (store : List QRCodeRec) (draws : Nat → String)
    (h : ∃ n, shortCodeFree store (pyTake (draws n) 8) = true)
    (id : Nat) (url : String) (filename : Option String)
    (fill_color back_color : String) (description : String)
    (is_dynamic : Bool) (short_code : Option String) (now : Nat) : QRCodeRec :=
  { id := id
    url := url
    filename := filename
    fill_color := fill_color
    back_color := back_color
    created_at := now
    updated_at := now
    is_active := true
    description := description
    access_count := 0
    is_dynamic := is_dynamic
    short_code :=
      if is_dynamic && pyFalsyOpt short_code then
        some (generate_short_code store draws h)
      else short_code
    redirect_url := PyAttr.absent }

/-- Embedding of QRCodeService.create_qr_code (app/services/qr_service.py):
builds the filename QRCode_timestamp.png, constructs the record (no
short_code argument, so a dynamic record draws one) and commits it,
returning the record and the new store. -/
def create_qr_code (store : List QRCodeRec) (draws : Nat → String)
    (h : ∃ n, shortCodeFree store (pyTake (draws n) 8) = true)
    (nextId : Nat) (url : String) (is_dynamic : Bool)
    (fill_color back_color description ts : String) (now : Nat) :
    QRCodeRec × List QRCodeRec :=
  let filename := "QRCode_" ++ ts ++ ".png"
  let qr := qrInit store draws h nextId url (some filename)
    fill_color back_color description is_dynamic none now
  (qr, store ++ [qr])

/-- Embedding of QRCodeService.update_qr_code (app/services/qr_service.py),
lifted to the store: the record fetched by id has its url, colors,
description and is_active overwritten; is_dynamic, short_code and
access_count are not touched. -/
def update_qr_code_store (store : List QRCodeRec) (qid : Nat)
    (url fill_color back_color description : String) (is_active : Bool) :
    List QRCodeRec :=
  store.map (fun r =>
    if r.id = qid then
      { r with url := url, fill_color := fill_color,
               back_color := back_color, description := description,
               is_active := is_active }
    else r)

/-- Embedding of QRCodeService.delete_qr_code (app/services/qr_service.py),
lifted to the store: a hard delete of the row with the given id. -/
def delete_qr_code_store (store : List QRCodeRec) (qid : Nat) : List QRCodeRec :=
  store.filter (fun r => r.id ≠ qid)

/-- Embedding of QRCodeService.increment_access_count
(app/services/qr_service.py), lifted to the store: the record with the
given id gets access_count + 1, then the session is committed. -/
def increment_access_count (store : List QRCodeRec) (qid : Nat) : List QRCodeRec :=
  store.map (fun r =>
    if r.id = qid then { r with access_count := r.access_count + 1 } else r)

/-- The Flask responses a redirect endpoint can produce: a 302 redirect,
the 404 produced by first_or_404, or the 500 produced by an uncaught
exception. -/
inductive Response where
  | redirect (location : String)
  | notFound
  | serverError
deriving DecidableEq, Repr

/-- Embedding of the lookup
QRCode.query.filter_by(short_code=short_code, is_active=True).first()
shared by both redirect endpoints: first record in insertion order whose
short_code matches and which is active. -/
def findActive (store : List QRCodeRec) (code : String) : Option QRCodeRec :=
  store.find? (fun r => r.short_code = some code && r.is_active)

/-- Embedding of the route handler redirect_qr for GET /r/short_code
(app/controllers/qr_controller.py).  commitOk says whether the database
commit inside increment_access_count succeeds; the handler has no
try/except around the increment, so a failing commit raises and Flask
answers 500 without redirecting.  Returns the response and the store
afterwards. -/
def redirect_qr (commitOk : Bool) (store : List QRCodeRec) (code : String) :
    Response × List QRCodeRec :=
  match findActive store code with
  | none => (Response.notFound, store)
  | some qr =>
    if commitOk then
      (Response.redirect qr.url, increment_access_count store qr.id)
    else
      (Response.serverError, store)

/-- Embedding of the route handler dynamic_redirect for GET /d/short_code
(app/controllers/qr_controller.py): same lookup and increment as
redirect_qr, then the target qr_code.redirect_url or qr_code.url is read
only after the increment is committed.  When the attribute is absent — the
state of every record freshly loaded from the database, since redirect_url
is not a column — the read raises AttributeError and Flask answers 500,
with the already-committed increment kept. -/
def dynamic_redirect (commitOk : Bool) (store : List QRCodeRec) (code : String) :
    Response × List QRCodeRec :=
  match findActive store code with
  | none => (Response.notFound, store)
  | some qr =>
    if commitOk then
      match pyAttrOrStr qr.redirect_url qr.url with
      | Except.error _ =>
        (Response.serverError, increment_access_count store qr.id)
      | Except.ok target =>
        (Response.redirect target, increment_access_count store qr.id)
    else
      (Response.serverError, store)

/-- Model of the external library predicate validators.url used by
is_valid_url: the payload must be an absolute URL with an explicit http or
https scheme and a host whose name is dotted (a registrable domain), which
is why a bare localhost host — with or without a port — is rejected.  This
follows the behaviour the repository pins down in test_is_valid_url. -/
def validatorsUrl (s : String) : Bool :=
  let cs := s.data
  let rest :=
    if List.isPrefixOf "https://".data cs then some (cs.drop 8)
    else if List.isPrefixOf "http://".data cs then some (cs.drop 7)
    else none
  match rest with
  | none => false
  | some r =>
    let hostport := r.takeWhile (fun c => !(c = '/' || c = '?' || c = '#'))
    let host := hostport.takeWhile (fun c => !(c = ':'))
    !host.isEmpty && host.contains '.' &&
      host.head? ≠ some '.' && host.getLast? ≠ some '.'

/-- Embedding of is_valid_url (app/utils/qr_generator.py), parameterised by
the library validator v: returns the verdict and the log lines emitted. -/
def is_valid_url (v : String → Bool) (url : String) : Bool × List String :=
  if v url then (true, [])
  else (false, ["Invalid URL provided: " ++ url])

/-- Environment for one call of generate_qr_code: whether the qrcode
library or the file write fails, whether that failure happens after
path.open truncated the destination, what partial content a post-open
failure leaves behind, and the image the library renders on success. -/
structure EncodeEnv where
  encodeFails : Bool
  failAfterOpen : Bool
  partialContent : String
  image : String
deriving Repr

/-- Result of one call of generate_qr_code: the boolean verdict (the
function catches every exception, so it always returns a verdict), the
destination file afterwards (None = absent), whether the destination was
opened, and the log lines emitted. -/
structure GenResult where
  success : Bool
  fileAfter : Option String
  opened : Bool
  log : List String
deriving DecidableEq, Repr

/-- Embedding of generate_qr_code (app/utils/qr_generator.py):
validate first and return False without touching the destination on
failure; otherwise encode and write inside a try/except that logs and
returns False on any failure instead of raising. -/
def generate_qr_code (v : String → Bool) (data : String) (env : EncodeEnv)
    (file : Option String) : GenResult :=
  match is_valid_url v data with
  | (false, log) => { success := false, fileAfter := file, opened := false, log := log }
  | (true, _) =>
    if env.encodeFails then
      { success := false
        fileAfter := if env.failAfterOpen then some env.partialContent else file
        opened := env.failAfterOpen
        log := ["An error occurred while generating or saving the QR code"] }
    else
      { success := true, fileAfter := some env.image, opened := true,
        log := ["QR code successfully saved"] }

/-- The formal parameters of QRCodeService.update_qr_code
(app/services/qr_service.py line 50). -/
def update_qr_code_params : List String :=
  ["qr_code", "url", "fill_color", "back_color", "description",
   "is_active", "qr_code_dir"]

/-- The keyword arguments the POST branch of edit_qr passes to
QRCodeService.update_qr_code (app/controllers/qr_controller.py
lines 83-92). -/
def edit_qr_update_call_kwargs : List String :=
  ["qr_code", "url", "fill_color", "back_color", "description",
   "filename", "is_active", "qr_code_dir"]

/-- The static methods QRCodeService actually defines
(app/services/qr_service.py). -/
def qr_code_service_methods : List String :=
  ["create_qr_code", "update_qr_code", "delete_qr_code",
   "increment_access_count", "validate_url", "generate_qr_image"]

/-- Python keyword-argument binding for a function without a kwargs
catch-all: the call binds exactly when every passed keyword names a formal
parameter; otherwise Python raises TypeError before the body runs. -/
def pyKwargsBind (params passed : List String) : Bool :=
  passed.all (fun a => params.contains a)

/-- Embedding of the database INSERT commit for a new QRCode row: the
schema declares filename NOT NULL, so committing a record whose filename
was never assigned raises IntegrityError (modelled as error). -/
def db_commit_insert (store : List QRCodeRec) (r : QRCodeRec) :
    Except String (List QRCodeRec) :=
  if r.filename = none then
    Except.error "NOT NULL constraint failed: qr_codes.filename"
  else Except.ok (store ++ [r])

/-- Embedding of the create_qr_code branch of LLMService._execute_function
(app/services/llm_service.py lines 321-355), parameterised by format_url
(fmt).  The branch constructs QRCode(url=..., is_dynamic=..., description=...,
fill_color=..., back_color=...) — it never passes or assigns filename —
then commits; the surrounding try/except turns any failure into
ValueError, modelled as error.  On success it would return the dict
(qr_code_id, filename, url). -/
def llm_execute_create (fmt : String → Except String String)
    (store : List QRCodeRec) (draws : Nat → String)
    (h : ∃ n, shortCodeFree store (pyTake (draws n) 8) = true)
    (nextId : Nat) (url : String) (is_dynamic : Bool)
    (description fill_color back_color : String) (now : Nat) :
    Except String (Nat × String × String) :=
  match fmt url with
  | Except.error e => Except.error ("Failed to create QR code: " ++ e)
  | Except.ok u =>
    let qr := qrInit store draws h nextId u none
      fill_color back_color description is_dynamic none now
    match db_commit_insert store qr with
    | Except.error e => Except.error ("Failed to create QR code: " ++ e)
    | Except.ok _ =>
      match qr.filename with
      | some f => Except.ok (qr.id, f, qr.url)
      | none => Except.error "Failed to create QR code: filename is None"

/-- Embedding of the field updates of the update_qr_code branch of
LLMService._execute_function (app/services/llm_service.py lines 419-470):
each field is overwritten only when present in the argument payload, and
updated_at is refreshed; access_count is never touched. -/
def llm_update_fields (r : QRCodeRec) (url? description? : Option String)
    (is_active? : Option Bool) (fill? back? : Option String) (now : Nat) :
    QRCodeRec :=
  let r1 := match url? with
    | some u => { r with url := u }
    | none => r
  let r2 := match description? with
    | some d => { r1 with description := d }
    | none => r1
  let r3 := match is_active? with
    | some a => { r2 with is_active := a }
    | none => r2
  let r4 := match fill? with
    | some f => { r3 with fill_color := f }
    | none => r3
  let r5 := match back? with
    | some b => { r4 with back_color := b }
    | none => r4
  { r5 with updated_at := now }

/-- Distinctness of short codes between two records: either the first has
no short code or the two codes differ.  This is the per-pair content of the
unique=True constraint on the short_code column. -/
def scDistinct (a b : QRCodeRec) : Prop :=
  a.short_code = none ∨ a.short_code ≠ b.short_code

instance (a b : QRCodeRec) : Decidable (scDistinct a b) := by
  unfold scDistinct; infer_instance

/-- Per-record short-code invariant: short_code is set exactly when
is_dynamic is, and a set short code has length 8. -/
def recInvOk (r : QRCodeRec) : Bool :=
  (r.is_dynamic = !r.short_code.isNone) &&
  (match r.short_code with
   | some c => c.length = 8
   | none => true)

/-- Store-wide short-code invariant: every record satisfies recInvOk and
set short codes are pairwise distinct. -/
def scInv (store : List QRCodeRec) : Prop :=
  (∀ r ∈ store, recInvOk r = true) ∧ store.Pairwise scDistinct

/-- A static sample record. -/
def recStatic : QRCodeRec :=
  { id := 1, url := "https://example.com", filename := some "test.png",
    fill_color := "red", back_color := "white", created_at := 0,
    updated_at := 0, is_active := true, description := "",
    access_count := 0, is_dynamic := false, short_code := none,
    redirect_url := PyAttr.absent }

/-- A dynamic sample record with an override target set transiently, the
way the repository's test_dynamic_redirect sets it on a session-cached
object. -/
def recDyn : QRCodeRec :=
  { recStatic with
    id := 2
    is_dynamic := true
    short_code := some "dyn12345"
    redirect_url := PyAttr.str "https://redirect.com" }

/-- An inactive dynamic sample record. -/
def recInactive : QRCodeRec :=
  { recStatic with
    id := 3
    is_dynamic := true
    is_active := false
    short_code := some "off12345" }

/-- A constant draw stream used by concrete witnesses; its value has the
11-character shape of secrets.token_urlsafe(8). -/
def constDraws : Nat → String := fun _ => "ABCDEFGHIJK"

/-- A sample store holding the three records above. -/
def sampleStore : List QRCodeRec := [recStatic, recDyn, recInactive]

/-- An active dynamic record as the dynamic endpoint sees it in
production: freshly loaded from the database, so the transient
redirect_url attribute is absent. -/
def recDynFresh : QRCodeRec :=
  { recStatic with
    id := 4
    is_dynamic := true
    short_code := some "fresh123"
    redirect_url := PyAttr.absent }

/-- A store whose records carry no transient redirect_url attribute, the
only state a real request ever finds. -/
def freshStore : List QRCodeRec := [recStatic, recDynFresh]

/-! ## Helper lemmas -/

theorem constDraws_len : ∀ n, 8 ≤ (constDraws n).length := by
  intro n
  show 8 ≤ ("ABCDEFGHIJK" : String).length
  decide

theorem pyTake_length_eq (s : String) (h : 8 ≤ s.length) :
    (pyTake s 8).length = 8 := by
  have : s.length = s.data.length := rfl
  show (s.data.take 8).length = 8
  rw [List.length_take]
  omega

theorem generate_short_code_free (store : List QRCodeRec)
    (draws : Nat → String)
    (h : ∃ n, shortCodeFree store (pyTake (draws n) 8) = true) :
    shortCodeFree store (generate_short_code store draws h) = true :=
  Nat.find_spec h

theorem generate_short_code_length (store : List QRCodeRec)
    (draws : Nat → String)
    (h : ∃ n, shortCodeFree store (pyTake (draws n) 8) = true)
    (hlen : ∀ n, 8 ≤ (draws n).length) :
    (generate_short_code store draws h).length = 8 :=
  pyTake_length_eq _ (hlen _)

theorem shortCodeFree_spec (store : List QRCodeRec) (code : String)
    (h : shortCodeFree store code = true) :
    ∀ r ∈ store, r.short_code ≠ some code := by
  intro r hr
  have := List.all_eq_true.mp h r hr
  simpa using this

theorem findActive_eq_of_mem (store : List QRCodeRec) (r : QRCodeRec)
    (code : String) (hu : store.Pairwise scDistinct) (hr : r ∈ store)
    (hc : r.short_code = some code) (ha : r.is_active = true) :
    findActive store code = some r := by
  induction store with
  | nil => simp at hr
  | cons x xs ih =>
    rw [List.pairwise_cons] at hu
    rcases List.mem_cons.mp hr with h1 | h1
    · subst h1
      simp [findActive, List.find?, hc, ha]
    · have hx : x.short_code ≠ some code := by
        intro hxc
        rcases hu.1 r h1 with hn | hne
        · rw [hn] at hxc; cases hxc
        · rw [hxc, hc] at hne; exact hne rfl
      have hrec : findActive xs code = some r := ih hu.2 h1
      simpa [findActive, List.find?, hx] using hrec

/-! ## C3 -/

/-- C3: whenever the stream of random draws reaches a candidate that is
free in the live store (the deterministic rendering of "some 8-character
code is still unused" together with fair randomness), generate_short_code
is well defined (the retry loop terminates) and returns an 8-character
token that collides with no existing short_code; moreover the result is a
draw of the stream and every earlier draw was rejected by the live-store
existence check, i.e. the loop re-draws on every collision. -/
theorem c3_generate_short_code_ok (store : List QRCodeRec)
    (draws : Nat → String)
    (hlen : ∀ n, 8 ≤ (draws n).length)
    (h : ∃ n, shortCodeFree store (pyTake (draws n) 8) = true) :
    (generate_short_code store draws h).length = 8 ∧
    shortCodeFree store (generate_short_code store draws h) = true ∧
    (∀ r ∈ store, r.short_code ≠ some (generate_short_code store draws h)) ∧
    ∃ n, generate_short_code store draws h = pyTake (draws n) 8 ∧
      ∀ m, m < n → shortCodeFree store (pyTake (draws m) 8) = false := by
  refine ⟨generate_short_code_length store draws h hlen,
    generate_short_code_free store draws h,
    shortCodeFree_spec store _ (generate_short_code_free store draws h),
    Nat.find h, rfl, ?_⟩
  intro m hm
  have := Nat.find_min h hm
  simpa using this

/-- Witness for C3 at a concrete store and draw stream. -/
theorem c3_witness :
    (generate_short_code sampleStore constDraws ⟨0, by decide⟩).length = 8 ∧
    shortCodeFree sampleStore
      (generate_short_code sampleStore constDraws ⟨0, by decide⟩) = true :=
  ⟨(c3_generate_short_code_ok sampleStore constDraws
      constDraws_len ⟨0, by decide⟩).1,
   (c3_generate_short_code_ok sampleStore constDraws
      constDraws_len ⟨0, by decide⟩).2.1⟩

/-! ## C1 -/

/-- C1: the static endpoint does redirect every stored active record to
its stored url, but the dynamic endpoint does not fall back to the stored
url when no override is set: redirect_url is not a column and no
production code assigns it, so on every record freshly loaded from the
database the attribute is absent, the read at qr_controller.py line 139
raises AttributeError, and the endpoint answers 500 — with the
access-count increment already committed.  The claim's fallback behaviour
is therefore unreachable for persisted records, although the repository's
test and the spec clearly intend it. -/
theorem c1_dynamic_redirect_crashes_on_fresh_record
    (store : List QRCodeRec) (r : QRCodeRec) (code : String)
    (hu : store.Pairwise scDistinct) (hr : r ∈ store)
    (hc : r.short_code = some code) (ha : r.is_active = true)
    (hfresh : r.redirect_url = PyAttr.absent) :
    (redirect_qr true store code).fst = Response.redirect r.url ∧
    (dynamic_redirect true store code).fst = Response.serverError ∧
    (dynamic_redirect true store code).snd =
      increment_access_count store r.id := by
  have hf := findActive_eq_of_mem store r code hu hr hc ha
  refine ⟨?_, ?_, ?_⟩
  · simp [redirect_qr, hf]
  · simp [dynamic_redirect, hf, pyAttrOrStr, hfresh]
  · simp [dynamic_redirect, hf, pyAttrOrStr, hfresh]

/-- Witness for C1: on a store of freshly loaded records the static
endpoint redirects while the dynamic endpoint answers 500. -/
theorem c1_witness :
    (redirect_qr true freshStore "fresh123").fst =
      Response.redirect "https://example.com" ∧
    (dynamic_redirect true freshStore "fresh123").fst =
      Response.serverError :=
  ⟨(c1_dynamic_redirect_crashes_on_fresh_record freshStore recDynFresh
      "fresh123" (by decide) (by decide) (by decide) (by decide)
      (by decide)).1,
   (c1_dynamic_redirect_crashes_on_fresh_record freshStore recDynFresh
      "fresh123" (by decide) (by decide) (by decide) (by decide)
      (by decide)).2.1⟩

/-! ## C2 -/

/-- C2 counterexample: with an active record in the store and a failing
access-count commit, the static redirect endpoint answers a server error,
not a redirect — the uncaught exception from the increment prevents the
redirect, contrary to the claim. -/
theorem c2_counterexample :
    findActive sampleStore "dyn12345" = some recDyn ∧
    (redirect_qr false sampleStore "dyn12345").fst = Response.serverError ∧
    (redirect_qr false sampleStore "dyn12345").fst ≠
      Response.redirect recDyn.url ∧
    (dynamic_redirect false sampleStore "dyn12345").fst = Response.serverError := by
  decide

/-- C2 amended: on a hit, the increment is committed before the response;
when the increment fails, the exception propagates on both endpoints —
the response is a server error, no redirect occurs, and the store is
unchanged.  When the increment succeeds, the static endpoint redirects to
the stored url, and the dynamic endpoint computes its response only after
the increment is already committed: it redirects exactly when reading the
redirect_url attribute succeeds, and answers 500 (with the increment
kept) when the attribute is absent. -/
theorem c2_amended_increment_gates_redirect
    (store : List QRCodeRec) (code : String) (r : QRCodeRec)
    (hf : findActive store code = some r) :
    redirect_qr true store code =
      (Response.redirect r.url, increment_access_count store r.id) ∧
    redirect_qr false store code = (Response.serverError, store) ∧
    dynamic_redirect false store code = (Response.serverError, store) ∧
    (dynamic_redirect true store code).snd =
      increment_access_count store r.id ∧
    (∀ t, pyAttrOrStr r.redirect_url r.url = Except.ok t →
      (dynamic_redirect true store code).fst = Response.redirect t) ∧
    (pyAttrOrStr r.redirect_url r.url = Except.error () →
      (dynamic_redirect true store code).fst = Response.serverError) := by
  refine ⟨?_, ?_, ?_, ?_, ?_, ?_⟩
  · simp [redirect_qr, hf]
  · simp [redirect_qr, hf]
  · simp [dynamic_redirect, hf]
  · cases hru : pyAttrOrStr r.redirect_url r.url <;>
      simp [dynamic_redirect, hf, hru]
  · intro t ht
    simp [dynamic_redirect, hf, ht]
  · intro herr
    simp [dynamic_redirect, hf, herr]

/-- Witness for the amended C2 at the sample store. -/
theorem c2_witness :
    redirect_qr false sampleStore "dyn12345" =
      (Response.serverError, sampleStore) ∧
    redirect_qr true sampleStore "dyn12345" =
      (Response.redirect recDyn.url,
        increment_access_count sampleStore recDyn.id) ∧
    (dynamic_redirect true sampleStore "dyn12345").fst =
      Response.redirect "https://redirect.com" :=
  ⟨(c2_amended_increment_gates_redirect sampleStore "dyn12345" recDyn
      (by decide)).2.1,
   (c2_amended_increment_gates_redirect sampleStore "dyn12345" recDyn
      (by decide)).1,
   (c2_amended_increment_gates_redirect sampleStore "dyn12345" recDyn
      (by decide)).2.2.2.2.1 "https://redirect.com" rfl⟩

/-! ## C8 -/

/-- C8: when no record carries the short code with is_active true —
because the code is unknown or because every record carrying it is
inactive — the lookup yields nothing and both redirect endpoints answer
not-found with the store unchanged, so no access count is incremented and
an inactive code is indistinguishable from a missing one. -/
theorem c8_inactive_or_missing_not_found
    (commitOk : Bool) (store : List QRCodeRec) (code : String)
    (hmiss : ∀ r ∈ store, r.short_code = some code → r.is_active = false) :
    findActive store code = none ∧
    redirect_qr commitOk store code = (Response.notFound, store) ∧
    dynamic_redirect commitOk store code = (Response.notFound, store) := by
  have hf : findActive store code = none := by
    apply List.find?_eq_none.mpr
    intro r hr hp
    rw [Bool.and_eq_true, decide_eq_true_eq] at hp
    have := hmiss r hr hp.1
    rw [this] at hp
    exact Bool.false_ne_true hp.2
  exact ⟨hf, by simp [redirect_qr, hf], by simp [dynamic_redirect, hf]⟩

/-- Witness for C8: the sample store holds an inactive record with short
code off12345 and no record with code missing1; both yield not-found on
both endpoints. -/
theorem c8_witness :
    redirect_qr true sampleStore "off12345" = (Response.notFound, sampleStore) ∧
    dynamic_redirect true sampleStore "off12345" =
      (Response.notFound, sampleStore) ∧
    redirect_qr true sampleStore "missing1" = (Response.notFound, sampleStore) :=
  ⟨(c8_inactive_or_missing_not_found true sampleStore "off12345"
      (by decide)).2.1,
   (c8_inactive_or_missing_not_found true sampleStore "off12345"
      (by decide)).2.2,
   (c8_inactive_or_missing_not_found true sampleStore "missing1"
      (by decide)).2.1⟩

/-! ## C7 -/

/-- C7: the encode operation validates first — when the library validator
rejects the payload it returns false with a log line, without opening the
destination and without raising (the embedding is a total function, as the
Python code's catch-all guarantees a boolean return) — and on any encoding
or I/O failure it returns false instead of propagating.  The modelled
validator rejects a bare localhost target, with or without scheme and
port, while accepting a well-formed absolute URL. -/
theorem c7_encode_error_handling
    (v : String → Bool) (data : String) (env : EncodeEnv)
    (file : Option String) :
    (v data = false →
      generate_qr_code v data env file =
        { success := false, fileAfter := file, opened := false,
          log := ["Invalid URL provided: " ++ data] }) ∧
    (env.encodeFails = true →
      (generate_qr_code v data env file).success = false) ∧
    validatorsUrl "localhost" = false ∧
    validatorsUrl "http://localhost:5000" = false ∧
    validatorsUrl "https://example.com" = true := by
  refine ⟨?_, ?_, by decide, by decide, by decide⟩
  · intro hv
    simp [generate_qr_code, is_valid_url, hv]
  · intro he
    cases hv : v data <;> simp [generate_qr_code, is_valid_url, hv, he]

/-- Witness for C7: a malformed payload is refused without touching the
file, and a save failure on a valid payload yields false. -/
theorem c7_witness :
    generate_qr_code validatorsUrl "not_a_url"
      { encodeFails := false, failAfterOpen := false,
        partialContent := "", image := "img" } none =
      { success := false, fileAfter := none, opened := false,
        log := ["Invalid URL provided: not_a_url"] } ∧
    (generate_qr_code validatorsUrl "https://example.com"
      { encodeFails := true, failAfterOpen := true,
        partialContent := "junk", image := "img" } (some "old")).success = false :=
  ⟨(c7_encode_error_handling validatorsUrl "not_a_url"
      { encodeFails := false, failAfterOpen := false,
        partialContent := "", image := "img" } none).1 (by decide),
   (c7_encode_error_handling validatorsUrl "https://example.com"
      { encodeFails := true, failAfterOpen := true,
        partialContent := "junk", image := "img" } (some "old")).2.1 rfl⟩

/-! ## C10 -/

/-- C10: when validation fails, generate_qr_code returns false before the
destination path is ever opened: the destination file — its prior content
or its absence — is exactly what it was before the call. -/
theorem c10_invalid_input_leaves_file_untouched
    (v : String → Bool) (data : String) (env : EncodeEnv)
    (file : Option String) (hv : v data = false) :
    (generate_qr_code v data env file).success = false ∧
    (generate_qr_code v data env file).opened = false ∧
    (generate_qr_code v data env file).fileAfter = file := by
  refine ⟨?_, ?_, ?_⟩ <;> simp [generate_qr_code, is_valid_url, hv]

/-- Witness for C10 with a pre-existing destination file. -/
theorem c10_witness :
    (generate_qr_code validatorsUrl "invalid_url"
      { encodeFails := false, failAfterOpen := false,
        partialContent := "", image := "img" }
      (some "prior image bytes")).fileAfter = some "prior image bytes" :=
  (c10_invalid_input_leaves_file_untouched validatorsUrl "invalid_url"
    { encodeFails := false, failAfterOpen := false,
      partialContent := "", image := "img" }
    (some "prior image bytes") (by decide)).2.2

/-! ## C5 -/

/-- C5 evaluated at the failing call: the POST branch of edit_qr passes
the keyword argument set including filename to
QRCodeService.update_qr_code, whose parameter list has no filename, so the
Python call raises TypeError before the update body runs; moreover the
QRCodeService.validate_filename the controller calls for a provided
filename is not among the methods the service defines.  The claim that the
edit endpoint invokes the update operation and returns without raising is
therefore false on this code. -/
theorem c5_edit_update_call_does_not_bind :
    pyKwargsBind update_qr_code_params edit_qr_update_call_kwargs = false ∧
    qr_code_service_methods.contains "validate_filename" = false ∧
    edit_qr_update_call_kwargs.contains "filename" = true ∧
    update_qr_code_params.contains "filename" = false := by
  decide

/-! ## C6 -/

/-- C6: the create branch of LLMService._execute_function never returns
the success summary: it constructs the QRCode without ever assigning the
NOT NULL filename column, so the commit fails and the branch raises
ValueError for every input — whatever format_url does with the URL.  The
claim that a valid URL yields a persisted record and a summary with id,
url and filename is therefore false on this code. -/
theorem c6_llm_create_always_fails
    (fmt : String → Except String String)
    (store : List QRCodeRec) (draws : Nat → String)
    (h : ∃ n, shortCodeFree store (pyTake (draws n) 8) = true)
    (nextId : Nat) (url : String) (dyn : Bool)
    (description fill back : String) (now : Nat) :
    ∃ e, llm_execute_create fmt store draws h nextId url dyn
      description fill back now = Except.error e := by
  unfold llm_execute_create
  cases hf : fmt url with
  | error e => exact ⟨_, rfl⟩
  | ok u => exact ⟨_, rfl⟩

/-- Witness for C6: the failing input of the repository's own test —
create_qr_code with url https://example.com and a format_url that accepts
it — produces the NOT NULL failure, not the success summary. -/
theorem c6_witness :
    llm_execute_create (fun u => Except.ok u) sampleStore constDraws
      ⟨0, by decide⟩ 4 "https://example.com" false "" "#000000" "#FFFFFF" 9 =
      Except.error
        "Failed to create QR code: NOT NULL constraint failed: qr_codes.filename" ∧
    ∃ e, llm_execute_create (fun u => Except.ok u) sampleStore constDraws
      ⟨0, by decide⟩ 4 "https://example.com" false "" "#000000" "#FFFFFF" 9 =
      Except.error e :=
  ⟨rfl,
   c6_llm_create_always_fails (fun u => Except.ok u) sampleStore constDraws
     ⟨0, by decide⟩ 4 "https://example.com" false "" "#000000" "#FFFFFF" 9⟩

/-! ## C9 -/

theorem increment_iterate_eq (store : List QRCodeRec) (qid : Nat) (N : Nat) :
    (fun s => increment_access_count s qid)^[N] store =
      store.map (fun r =>
        if r.id = qid then { r with access_count := r.access_count + N }
        else r) := by
  induction N with
  | zero =>
    simp only [Function.iterate_zero, id_eq]
    have h0 : ∀ r ∈ store,
        (if r.id = qid then { r with access_count := r.access_count + 0 }
         else r) = id r := by
      intro r _
      by_cases hid : r.id = qid
      · rw [if_pos hid]; rfl
      · rw [if_neg hid]; rfl
    rw [List.map_congr_left h0, List.map_id]
  | succ n ihn =>
    rw [Function.iterate_succ_apply', ihn]
    unfold increment_access_count
    rw [List.map_map]
    apply List.map_congr_left
    intro r _
    by_cases hid : r.id = qid
    · simp only [Function.comp_apply, if_pos hid]
      rfl
    · simp only [Function.comp_apply, if_neg hid]

/-- C9: only the access-increment operation changes access_count, and by
exactly one per call: N iterated calls on a record id add exactly N to
that record's count and leave every other record untouched; creation
appends a record with count zero and leaves the existing rows unchanged;
the store update operation preserves every record's (id, access_count)
pair; deletion only removes rows, leaving the surviving rows as they were;
and the assistant's update branch never touches access_count. -/
theorem c9_access_count_discipline (store : List QRCodeRec) (qid N : Nat)
    (draws : Nat → String)
    (h : ∃ n, shortCodeFree store (pyTake (draws n) 8) = true)
    (nextId : Nat) (url : String) (dyn : Bool)
    (fill back desc ts : String) (now : Nat)
    (u2 f2 b2 d2 : String) (a2 : Bool)
    (r : QRCodeRec) (url? desc? : Option String) (act? : Option Bool)
    (fill? back? : Option String) (now2 : Nat) :
    ((fun s => increment_access_count s qid)^[N] store =
      store.map (fun x =>
        if x.id = qid then { x with access_count := x.access_count + N }
        else x)) ∧
    ((create_qr_code store draws h nextId url dyn fill back desc ts now).snd =
      store ++
        [(create_qr_code store draws h nextId url dyn fill back desc ts now).fst]) ∧
    ((create_qr_code store draws h nextId url dyn
        fill back desc ts now).fst.access_count = 0) ∧
    ((update_qr_code_store store qid u2 f2 b2 d2 a2).map
        (fun x => (x.id, x.access_count)) =
      store.map (fun x => (x.id, x.access_count))) ∧
    (∀ x ∈ delete_qr_code_store store qid, x ∈ store) ∧
    ((llm_update_fields r url? desc? act? fill? back? now2).access_count =
      r.access_count) := by
  refine ⟨increment_iterate_eq store qid N, rfl, rfl, ?_, ?_, ?_⟩
  · unfold update_qr_code_store
    rw [List.map_map]
    apply List.map_congr_left
    intro x _
    by_cases hid : x.id = qid <;> simp [Function.comp, hid]
  · intro x hx
    exact (List.mem_filter.mp hx).1
  · unfold llm_update_fields
    cases url? <;> cases desc? <;> cases act? <;> cases fill? <;>
      cases back? <;> rfl

/-- Witness for C9: three iterated increments on the sample store add
exactly three to the targeted record, and the assistant update branch at a
concrete record keeps access_count. -/
theorem c9_witness :
    ((fun s => increment_access_count s 2)^[3] sampleStore =
      sampleStore.map (fun x =>
        if x.id = 2 then { x with access_count := x.access_count + 3 }
        else x)) ∧
    (llm_update_fields recStatic (some "https://updated.com") (some "d")
      (some false) none none 7).access_count = recStatic.access_count :=
  ⟨(c9_access_count_discipline sampleStore 2 3 constDraws ⟨0, by decide⟩
      9 "https://x.com" false "red" "white" "" "ts" 0 "u" "f" "b" "d" true
      recStatic (some "https://updated.com") (some "d") (some false)
      none none 7).1,
   (c9_access_count_discipline sampleStore 2 3 constDraws ⟨0, by decide⟩
      9 "https://x.com" false "red" "white" "" "ts" 0 "u" "f" "b" "d" true
      recStatic (some "https://updated.com") (some "d") (some false)
      none none 7).2.2.2.2.2⟩

/-! ## C4 -/

theorem recInvOk_congr (a b : QRCodeRec) (h1 : a.short_code = b.short_code)
    (h2 : a.is_dynamic = b.is_dynamic) : recInvOk a = recInvOk b := by
  unfold recInvOk
  rw [h1, h2]

theorem scInv_map (store : List QRCodeRec) (g : QRCodeRec → QRCodeRec)
    (hg : ∀ r, (g r).short_code = r.short_code ∧ (g r).is_dynamic = r.is_dynamic)
    (hinv : scInv store) : scInv (store.map g) := by
  constructor
  · intro r hr
    rcases List.mem_map.mp hr with ⟨x, hx, rfl⟩
    rw [recInvOk_congr (g x) x (hg x).1 (hg x).2]
    exact hinv.1 x hx
  · rw [List.pairwise_map]
    apply List.Pairwise.imp ?_ hinv.2
    intro a b hd
    unfold scDistinct at hd ⊢
    rw [(hg a).1, (hg b).1]
    exact hd

theorem scInv_filter (store : List QRCodeRec) (p : QRCodeRec → Bool)
    (hinv : scInv store) : scInv (store.filter p) :=
  ⟨fun r hr => hinv.1 r (List.mem_filter.mp hr).1,
   List.Pairwise.sublist (List.filter_sublist store) hinv.2⟩

theorem create_short_code_eq (store : List QRCodeRec) (draws : Nat → String)
    (h : ∃ n, shortCodeFree store (pyTake (draws n) 8) = true)
    (nextId : Nat) (url : String) (dyn : Bool)
    (fill back desc ts : String) (now : Nat) :
    (create_qr_code store draws h nextId url dyn
        fill back desc ts now).fst.short_code =
      if dyn = true then some (generate_short_code store draws h)
      else none := by
  show (if (dyn && pyFalsyOpt none) = true then
      some (generate_short_code store draws h) else none) = _
  cases dyn <;> rfl

/-- C4: a record created by the service has short_code exactly when
is_dynamic — for a dynamic create it is an 8-character code free in the
store at creation time, for a static create it is None — the invariant
(short_code set iff is_dynamic, set codes of length 8 and pairwise
distinct) holds of the store after the create, and it is preserved by the
update, delete and access-increment operations on any store satisfying
it. -/
theorem c4_short_code_invariant (store : List QRCodeRec)
    (draws : Nat → String)
    (h : ∃ n, shortCodeFree store (pyTake (draws n) 8) = true)
    (hlen : ∀ n, 8 ≤ (draws n).length) (hinv : scInv store)
    (nextId : Nat) (url : String) (dyn : Bool)
    (fill back desc ts : String) (now : Nat) :
    (dyn = true → ∃ c,
      (create_qr_code store draws h nextId url dyn
        fill back desc ts now).fst.short_code = some c ∧
      c.length = 8 ∧ shortCodeFree store c = true) ∧
    (dyn = false →
      (create_qr_code store draws h nextId url dyn
        fill back desc ts now).fst.short_code = none) ∧
    scInv (create_qr_code store draws h nextId url dyn
      fill back desc ts now).snd ∧
    (∀ st, scInv st → ∀ qid u2 f2 b2 d2 a2,
      scInv (update_qr_code_store st qid u2 f2 b2 d2 a2)) ∧
    (∀ st, scInv st → ∀ qid, scInv (delete_qr_code_store st qid)) ∧
    (∀ st, scInv st → ∀ qid, scInv (increment_access_count st qid)) := by
  have hsc := create_short_code_eq store draws h nextId url dyn
    fill back desc ts now
  have hdyn : (create_qr_code store draws h nextId url dyn
      fill back desc ts now).fst.is_dynamic = dyn := rfl
  have hsnd : (create_qr_code store draws h nextId url dyn
      fill back desc ts now).snd =
      store ++ [(create_qr_code store draws h nextId url dyn
        fill back desc ts now).fst] := rfl
  refine ⟨?_, ?_, ?_, ?_, ?_, ?_⟩
  · intro hd
    refine ⟨generate_short_code store draws h, ?_, ?_, ?_⟩
    · rw [hsc, if_pos hd]
    · exact generate_short_code_length store draws h hlen
    · exact generate_short_code_free store draws h
  · intro hd
    rw [hsc, if_neg (by simp [hd])]
  · rw [hsnd]
    constructor
    · intro r hr
      rcases List.mem_append.mp hr with hr | hr
      · exact hinv.1 r hr
      · have hq : r = (create_qr_code store draws h nextId url dyn
            fill back desc ts now).fst := by simpa using hr
        subst hq
        unfold recInvOk
        rw [hsc, hdyn]
        cases dyn
        · simp
        · simp [generate_short_code_length store draws h hlen]
    · rw [List.pairwise_append]
      refine ⟨hinv.2, List.pairwise_singleton _ _, ?_⟩
      intro a ha b hb
      have hb' : b = (create_qr_code store draws h nextId url dyn
          fill back desc ts now).fst := by simpa using hb
      subst hb'
      unfold scDistinct
      by_cases hdy : dyn = true
      · right
        rw [hsc, if_pos hdy]
        exact shortCodeFree_spec store _
          (generate_short_code_free store draws h) a ha
      · cases hasc : a.short_code with
        | none => left; rfl
        | some c =>
          right
          rw [hsc, if_neg hdy]
          simp
  · intro st hst qid u2 f2 b2 d2 a2
    apply scInv_map st _ ?_ hst
    intro r
    by_cases hid : r.id = qid
    · rw [if_pos hid]; exact ⟨rfl, rfl⟩
    · rw [if_neg hid]; exact ⟨rfl, rfl⟩
  · intro st hst qid
    exact scInv_filter st _ hst
  · intro st hst qid
    apply scInv_map st _ ?_ hst
    intro r
    by_cases hid : r.id = qid
    · rw [if_pos hid]; exact ⟨rfl, rfl⟩
    · rw [if_neg hid]; exact ⟨rfl, rfl⟩

/-- Witness for C4: a dynamic create on the sample store yields an
8-character code free in the store, and the resulting store satisfies the
invariant. -/
theorem c4_witness :
    (∃ c, (create_qr_code sampleStore constDraws ⟨0, by decide⟩ 4
      "https://example.com" true "red" "white" "" "20240101" 5).fst.short_code =
        some c ∧ c.length = 8 ∧ shortCodeFree sampleStore c = true) ∧
    scInv (create_qr_code sampleStore constDraws ⟨0, by decide⟩ 4
      "https://example.com" true "red" "white" "" "20240101" 5).snd :=
  ⟨(c4_short_code_invariant sampleStore constDraws ⟨0, by decide⟩
      constDraws_len (by constructor <;> decide) 4 "https://example.com"
      true "red" "white" "" "20240101" 5).1 rfl,
   (c4_short_code_invariant sampleStore constDraws ⟨0, by decide⟩
      constDraws_len (by constructor <;> decide) 4 "https://example.com"
      true "red" "white" "" "20240101" 5).2.2.1⟩
